import Mathlib

/-!
Verification of the date-range rate / availability engine of the hotel
booking backend.

The embedding follows the request handlers in
`backend/app/api/v1/availability.py` (`update_daily_rates`,
`get_availability`) and `backend/app/api/v1/public.py`
(`search_public_rooms`), together with the table models in
`backend/app/models` (`RoomType`, `RoomBlock`, `PromoCode`).

Conventions of the embedding:
* Calendar dates are integers counting days (a date field is an `Int`); adding one day
  is `+ 1`, and Python `timedelta(days=1)` arithmetic maps to integer
  addition.  In concrete examples, "Jan n" is encoded as the day number n.
* Python floats carrying prices are embedded as rationals; every price
  computation in the handlers is plain field arithmetic, so this is exact.
* A SQL table is a `List` of row records; a query with a WHERE clause is a
  `List.filter` with the same condition, and the session-level
  delete/update/insert sequencing of one request is a pure function from
  the row list to the new row list.
* The `Booking`, `RoomRate` and `RatePlan` table models live in modules of
  the repository that are not part of the provided sources; their fields
  are reconstructed from every use in the two handlers above and from the
  data-model section of the specification.
-/

/-- Status enum of a booking, as in the `BookingStatus` model (the member
names mirror the spec list: pending, confirmed, checked-in, checked-out,
cancelled).  Only `cancelled` matters to the availability queries. -/
inductive BookingStatus where
  | pending
  | confirmed
  | checkedIn
  | checkedOut
  | cancelled
deriving DecidableEq

/-- One entry of a booking's embedded `rooms` list; each entry contributes
one unit of the named room type. -/
structure RoomSelection where
  room_type_id : Nat
deriving DecidableEq

/-- Booking row: fields used by the availability queries
(`hotel_id`, `status`, `check_in`, `check_out`, `rooms`). -/
structure Booking where
  hotel_id : Nat
  check_in : Int
  check_out : Int
  status : BookingStatus
  rooms : List RoomSelection
deriving DecidableEq

/-- RoomType row (`app/models/room.py`), restricted to the fields the two
handlers read. -/
structure RoomType where
  id : Nat
  hotel_id : Nat
  name : String
  base_occupancy : Int
  max_occupancy : Int
  max_children : Int
  base_price : ℚ
  total_inventory : Int
  is_active : Bool
  extra_person_price : ℚ
deriving DecidableEq

/-- RoomBlock row (`app/models/room.py`): inclusive `start_date`/`end_date`
and a withheld-unit count. -/
structure RoomBlock where
  hotel_id : Nat
  room_type_id : Nat
  start_date : Int
  end_date : Int
  blocked_count : Int
deriving DecidableEq

/-- RoomRate row (the `RoomRate` model imported by both handlers):
`rate_plan_id = none` marks a base-price override range; the
`date_from`/`date_to` interval is inclusive on both ends. -/
structure RoomRate where
  hotel_id : Nat
  room_type_id : Nat
  rate_plan_id : Option Nat
  date_from : Int
  date_to : Int
  price : ℚ
deriving DecidableEq

/-- RatePlan row: fields read by `search_public_rooms`
(`hotel_id`, `is_active`, `name`, `meal_plan`, `price_adjustment`). -/
structure RatePlan where
  id : Nat
  hotel_id : Nat
  name : String
  meal_plan : String
  price_adjustment : Option ℚ
  is_active : Bool
deriving DecidableEq

/-- PromoCode row (`app/models/promo.py`). -/
structure PromoCode where
  hotel_id : Nat
  code : String
  discount_type : String
  discount_value : ℚ
  start_date : Option Int
  end_date : Option Int
  max_usage : Option Int
  current_usage : Int
  is_active : Bool
deriving DecidableEq

/-- The database state visible to the handlers: one list of rows per table. -/
structure Store where
  room_types : List RoomType
  bookings : List Booking
  blocks : List RoomBlock
  rates : List RoomRate
  rate_plans : List RatePlan
  promos : List PromoCode
deriving DecidableEq

/-! ## Daily Rate Store: `update_daily_rates` (`availability.py`, POST /rates) -/

/-- Request body `RateUpdate` of the POST /availability/rates endpoint.
The pydantic model declares plain `date` and `float` fields with no
constraint, so every combination of values reaches the handler. -/
structure RateUpdate where
  room_type_id : Nat
  start_date : Int
  end_date : Int
  price : ℚ
deriving DecidableEq

/-- The new base-price range inserted unconditionally at the end of
`update_daily_rates` (step 4 of the handler). -/
def newRate (hid : Nat) (u : RateUpdate) : RoomRate :=
  { hotel_id := hid
    room_type_id := u.room_type_id
    rate_plan_id := none
    date_from := u.start_date
    date_to := u.end_date
    price := u.price }

/-- WHERE clause of the overlap query in `update_daily_rates`: same hotel,
same room type, base-price rows only. -/
def matchesBaseKey (hid rtid : Nat) (r : RoomRate) : Bool :=
  decide (r.hotel_id = hid ∧ r.room_type_id = rtid ∧ r.rate_plan_id = none)

/-- Inclusive-inclusive overlap test of the query:
`date_from <= new.end AND date_to >= new.start`. -/
def overlapsWindow (u : RateUpdate) (r : RoomRate) : Bool :=
  decide (r.date_from ≤ u.end_date ∧ u.start_date ≤ r.date_to)

/-- The per-row rewrite of step 3 of `update_daily_rates`, applied to each
fetched overlapping row in order: Case A deletes a fully contained row;
Case B trims a row overlapping the start (splitting off a tail when the row
also extends past the new end); Case D trims a row overlapping only the
end.  The final branch keeps the row unchanged (no elif applies). -/
def rewriteOverlap (u : RateUpdate) (r : RoomRate) : List RoomRate :=
  if u.start_date ≤ r.date_from ∧ r.date_to ≤ u.end_date then
    []
  else if r.date_from < u.start_date ∧ u.start_date ≤ r.date_to then
    if u.end_date < r.date_to then
      [{ r with date_to := u.start_date - 1 },
       { hotel_id := r.hotel_id
         room_type_id := r.room_type_id
         rate_plan_id := none
         date_from := u.end_date + 1
         date_to := r.date_to
         price := r.price }]
    else
      [{ r with date_to := u.start_date - 1 }]
  else if r.date_from ≤ u.end_date ∧ u.end_date < r.date_to then
    [{ r with date_from := u.end_date + 1 }]
  else
    [r]

/-- Effect of one row of the store under one `update_daily_rates` call:
rows outside the overlap query pass through untouched; fetched rows are
rewritten. -/
def updateRow (hid : Nat) (u : RateUpdate) (r : RoomRate) : List RoomRate :=
  if matchesBaseKey hid u.room_type_id r && overlapsWindow u r then
    rewriteOverlap u r
  else
    [r]

/-- The whole POST /availability/rates handler as a function on the
rate table: rewrite every overlapping base-price row of the target room
type, then insert the new range.  There is no input validation anywhere in
the handler. -/
def update_daily_rates (hid : Nat) (u : RateUpdate) (store : List RoomRate) :
    List RoomRate :=
  (store.flatMap (updateRow hid u)) ++ [newRate hid u]

/-! ## Overlap invariant -/

/-- Two stored ranges overlap when their inclusive date intervals
intersect. -/
def ratesOverlap (a b : RoomRate) : Prop :=
  a.date_from ≤ b.date_to ∧ b.date_from ≤ a.date_to

instance (a b : RoomRate) : Decidable (ratesOverlap a b) :=
  inferInstanceAs (Decidable (And _ _))

/-- Two rows live in the same (hotel, room type, plan-or-base) partition of
the rate table. -/
def sameKey (a b : RoomRate) : Prop :=
  a.hotel_id = b.hotel_id ∧ a.room_type_id = b.room_type_id ∧
    a.rate_plan_id = b.rate_plan_id

instance (a b : RoomRate) : Decidable (sameKey a b) :=
  inferInstanceAs (Decidable (And _ _))

/-- Store-wide invariant: any two rows of the same partition have disjoint
date intervals. -/
def RateTableInv (store : List RoomRate) : Prop :=
  store.Pairwise (fun a b => sameKey a b → ¬ ratesOverlap a b)

theorem sameKey_refl (r : RoomRate) : sameKey r r := ⟨rfl, rfl, rfl⟩

theorem pairwise_flatMap_of {α β : Type} {R : α → α → Prop} {f : β → List α} :
    ∀ {l : List β}, (∀ b ∈ l, (f b).Pairwise R) →
      l.Pairwise (fun x y => ∀ a ∈ f x, ∀ c ∈ f y, R a c) →
      (l.flatMap f).Pairwise R := by
  intro l
  induction l with
  | nil => intro _ _; simp
  | cons b t ih =>
    intro h1 h2
    rw [List.flatMap_cons, List.pairwise_append]
    refine ⟨h1 b (by simp), ih (fun x hx => h1 x (by simp [hx]))
      (List.Pairwise.of_cons h2), ?_⟩
    intro a ha c hc
    rw [List.mem_flatMap] at hc
    obtain ⟨y, hy, hcy⟩ := hc
    exact (List.rel_of_pairwise_cons h2 hy) a ha c hcy

theorem rewriteOverlap_piece {u : RateUpdate} {r p : RoomRate}
    (hw : u.start_date ≤ u.end_date) (hplan : r.rate_plan_id = none)
    (hp : p ∈ rewriteOverlap u r) :
    sameKey p r ∧ r.date_from ≤ p.date_from ∧ p.date_to ≤ r.date_to := by
  unfold rewriteOverlap at hp
  split at hp
  · simp at hp
  · split at hp
    · split at hp
      · rename_i h1 h2 h3
        simp only [List.mem_cons, List.mem_singleton, List.not_mem_nil,
          or_false] at hp
        rcases hp with hp | hp <;> subst hp
        · exact ⟨⟨rfl, rfl, rfl⟩, le_refl _, by dsimp; omega⟩
        · exact ⟨⟨rfl, rfl, hplan.symm⟩, by dsimp; omega, by dsimp; omega⟩
      · rename_i h1 h2 h3
        simp only [List.mem_singleton] at hp; subst hp
        exact ⟨⟨rfl, rfl, rfl⟩, le_refl _, by dsimp; omega⟩
    · split at hp
      · rename_i h1 h2 h3
        simp only [List.mem_singleton] at hp; subst hp
        exact ⟨⟨rfl, rfl, rfl⟩, by dsimp; omega, le_refl _⟩
      · simp only [List.mem_singleton] at hp; subst hp
        exact ⟨sameKey_refl _, le_refl _, le_refl _⟩

theorem rewriteOverlap_piece_disjoint {hid : Nat} {u : RateUpdate} {r p : RoomRate}
    (hov : overlapsWindow u r = true) (hp : p ∈ rewriteOverlap u r) :
    ¬ ratesOverlap p (newRate hid u) := by
  have hov2 : r.date_from ≤ u.end_date ∧ u.start_date ≤ r.date_to := by
    unfold overlapsWindow at hov
    exact of_decide_eq_true hov
  unfold rewriteOverlap at hp
  split at hp
  · simp at hp
  · split at hp
    · split at hp
      · rename_i h1 h2 h3
        simp only [List.mem_cons, List.mem_singleton, List.not_mem_nil,
          or_false] at hp
        rcases hp with hp | hp <;> subst hp <;>
          · intro hcon
            unfold ratesOverlap newRate at hcon
            dsimp at hcon
            omega
      · rename_i h1 h2 h3
        simp only [List.mem_singleton] at hp; subst hp
        intro hcon
        unfold ratesOverlap newRate at hcon
        dsimp at hcon
        omega
    · split at hp
      · rename_i h1 h2 h3
        simp only [List.mem_singleton] at hp; subst hp
        intro hcon
        unfold ratesOverlap newRate at hcon
        dsimp at hcon
        omega
      · rename_i h1 h2 h3
        simp only [List.mem_singleton] at hp; subst hp
        intro hcon
        unfold ratesOverlap newRate at hcon
        dsimp at hcon
        omega

theorem rewriteOverlap_pairwise {u : RateUpdate} {r : RoomRate}
    (hw : u.start_date ≤ u.end_date) :
    (rewriteOverlap u r).Pairwise (fun a b => ¬ ratesOverlap a b) := by
  unfold rewriteOverlap
  split
  · exact List.Pairwise.nil
  · split
    · split
      · rename_i h1 h2 h3
        refine List.Pairwise.cons ?_ (List.pairwise_singleton _ _)
        intro c hc
        simp only [List.mem_singleton] at hc; subst hc
        intro hcon
        unfold ratesOverlap at hcon
        dsimp at hcon
        omega
      · exact List.pairwise_singleton _ _
    · split
      · exact List.pairwise_singleton _ _
      · exact List.pairwise_singleton _ _

theorem updateRow_piece {hid : Nat} {u : RateUpdate} {r p : RoomRate}
    (hw : u.start_date ≤ u.end_date) (hp : p ∈ updateRow hid u r) :
    sameKey p r ∧ r.date_from ≤ p.date_from ∧ p.date_to ≤ r.date_to := by
  unfold updateRow at hp
  split at hp
  · rename_i hc
    rw [Bool.and_eq_true] at hc
    have hkey := hc.1
    unfold matchesBaseKey at hkey
    exact rewriteOverlap_piece hw (of_decide_eq_true hkey).2.2 hp
  · simp only [List.mem_singleton] at hp; subst hp
    exact ⟨sameKey_refl p, le_refl _, le_refl _⟩

theorem updateRow_piece_disjoint {hid : Nat} {u : RateUpdate} {r p : RoomRate}
    (hp : p ∈ updateRow hid u r)
    (hkeyp : p.hotel_id = hid ∧ p.room_type_id = u.room_type_id ∧
      p.rate_plan_id = none) :
    ¬ ratesOverlap p (newRate hid u) := by
  unfold updateRow at hp
  split at hp
  · rename_i hc
    rw [Bool.and_eq_true] at hc
    exact rewriteOverlap_piece_disjoint hc.2 hp
  · rename_i hc
    simp only [List.mem_singleton] at hp; subst hp
    rw [Bool.and_eq_true] at hc
    have hm : matchesBaseKey hid u.room_type_id p = true := by
      unfold matchesBaseKey
      exact decide_eq_true hkeyp
    have hovf : ¬ overlapsWindow u p = true := fun hov => hc ⟨hm, hov⟩
    unfold overlapsWindow at hovf
    rw [decide_eq_true_eq] at hovf
    intro hcon
    unfold ratesOverlap newRate at hcon
    dsimp at hcon
    exact hovf ⟨hcon.1, hcon.2⟩

theorem update_preserves_inv {hid : Nat} {u : RateUpdate} {store : List RoomRate}
    (hw : u.start_date ≤ u.end_date) (h : RateTableInv store) :
    RateTableInv (update_daily_rates hid u store) := by
  unfold update_daily_rates RateTableInv
  rw [List.pairwise_append]
  refine ⟨?_, List.pairwise_singleton _ _, ?_⟩
  · apply pairwise_flatMap_of
    · intro r _
      unfold updateRow
      split
      · exact List.Pairwise.imp
          (fun {a b} (hr : ¬ ratesOverlap a b) (_ : sameKey a b) => hr)
          (rewriteOverlap_pairwise hw)
      · exact List.pairwise_singleton _ _
    · refine List.Pairwise.imp (fun {r1 r2} h12 => ?_) h
      intro a ha c hc hkac hcon
      obtain ⟨⟨ka1, ka2, ka3⟩, ha1, ha2⟩ := updateRow_piece hw ha
      obtain ⟨⟨kc1, kc2, kc3⟩, hc1, hc2⟩ := updateRow_piece hw hc
      obtain ⟨k1, k2, k3⟩ := hkac
      have hk12 : sameKey r1 r2 :=
        ⟨by rw [← ka1, k1, kc1], by rw [← ka2, k2, kc2], by rw [← ka3, k3, kc3]⟩
      obtain ⟨o1, o2⟩ := hcon
      exact h12 hk12 ⟨by omega, by omega⟩
  · intro a ha b hb
    simp only [List.mem_singleton] at hb; subst hb
    intro hkab
    obtain ⟨r, hr, har⟩ := List.mem_flatMap.mp ha
    exact updateRow_piece_disjoint har ⟨hkab.1, hkab.2.1, hkab.2.2⟩

theorem foldl_preserves_inv (hid : Nat) :
    ∀ (us : List RateUpdate) (store : List RoomRate),
      (∀ u ∈ us, u.start_date ≤ u.end_date) → RateTableInv store →
      RateTableInv (us.foldl (fun st u => update_daily_rates hid u st) store) := by
  intro us
  induction us with
  | nil => intro store _ h; exact h
  | cons u t ih =>
    intro store hw h
    exact ih _ (fun v hv => hw v (List.mem_cons_of_mem _ hv))
      (update_preserves_inv (hw u (List.mem_cons_self _ _)) h)

/-- C1: for every sequence of `set_range_price` operations
(`update_daily_rates`) with well-formed input ranges, starting from an
empty rate table, the stored base-price ranges of any one room type are
pairwise non-overlapping. -/
theorem C1_set_range_price_nonoverlap (hid rtid : Nat) (us : List RateUpdate)
    (hw : ∀ u ∈ us, u.start_date ≤ u.end_date) :
    ((us.foldl (fun st u => update_daily_rates hid u st) []).filter
        (matchesBaseKey hid rtid)).Pairwise (fun a b => ¬ ratesOverlap a b) := by
  have hinv := foldl_preserves_inv hid us [] hw List.Pairwise.nil
  have hf := List.Pairwise.filter (matchesBaseKey hid rtid) hinv
  refine List.Pairwise.imp_of_mem ?_ hf
  intro a b ha hb hab
  apply hab
  have ha2 := (List.mem_filter.mp ha).2
  have hb2 := (List.mem_filter.mp hb).2
  unfold matchesBaseKey at ha2 hb2
  have pa := of_decide_eq_true ha2
  have pb := of_decide_eq_true hb2
  exact ⟨pa.1.trans pb.1.symm, pa.2.1.trans pb.2.1.symm, pa.2.2.trans pb.2.2.symm⟩

/-- Concrete update sequence used to witness C1: three overlapping
well-formed range writes for room type 1. -/
def rateUpdateSeqW : List RateUpdate :=
  [{ room_type_id := 1, start_date := 1, end_date := 10, price := 100 },
   { room_type_id := 1, start_date := 4, end_date := 6, price := 200 },
   { room_type_id := 1, start_date := 5, end_date := 12, price := 70 }]

/-- Witness for C1: the hypotheses hold at the concrete sequence
`rateUpdateSeqW` and the non-overlap conclusion follows. -/
theorem C1_set_range_price_nonoverlap_witness :
    (∀ u ∈ rateUpdateSeqW, u.start_date ≤ u.end_date) ∧
      ((rateUpdateSeqW.foldl (fun st u => update_daily_rates 0 u st) []).filter
          (matchesBaseKey 0 1)).Pairwise (fun a b => ¬ ratesOverlap a b) :=
  ⟨by decide, C1_set_range_price_nonoverlap 0 1 rateUpdateSeqW (by decide)⟩

/-- C3: starting from the single stored base range [Jan 1, Jan 10] at price
100 (days 1..10), `set_range_price([Jan 4, Jan 6], 200)` leaves exactly the
three ranges [Jan 1, Jan 3] at 100, [Jan 7, Jan 10] at 100 and
[Jan 4, Jan 6] at 200 (the first two are the trimmed head and split tail of
the old range, the last is the newly inserted range). -/
theorem C3_split_yields_three_ranges :
    update_daily_rates 0
        { room_type_id := 1, start_date := 4, end_date := 6, price := 200 }
        [{ hotel_id := 0, room_type_id := 1, rate_plan_id := none,
           date_from := 1, date_to := 10, price := 100 }] =
      [{ hotel_id := 0, room_type_id := 1, rate_plan_id := none,
         date_from := 1, date_to := 3, price := 100 },
       { hotel_id := 0, room_type_id := 1, rate_plan_id := none,
         date_from := 7, date_to := 10, price := 100 },
       { hotel_id := 0, room_type_id := 1, rate_plan_id := none,
         date_from := 4, date_to := 6, price := 200 }] := by decide

/-- C5 counterexample: `update_daily_rates` receives an inverted range
(start 5 > end 3) with a negative price and, far from rejecting it before
any mutation, splits the stored range [1,10] into the two overlapping
remnants [1,4] and [4,10] and inserts the inverted negative-price range:
the stored ranges are changed. -/
theorem C5_counterexample :
    (5 : Int) > 3 ∧ (-1 : ℚ) < 0 ∧
      update_daily_rates 0
          { room_type_id := 1, start_date := 5, end_date := 3, price := -1 }
          [{ hotel_id := 0, room_type_id := 1, rate_plan_id := none,
             date_from := 1, date_to := 10, price := 100 }] =
        [{ hotel_id := 0, room_type_id := 1, rate_plan_id := none,
           date_from := 1, date_to := 4, price := 100 },
         { hotel_id := 0, room_type_id := 1, rate_plan_id := none,
           date_from := 4, date_to := 10, price := 100 },
         { hotel_id := 0, room_type_id := 1, rate_plan_id := none,
           date_from := 5, date_to := 3, price := -1 }] := by decide

/-- C5 amended: `update_daily_rates` performs no input validation at all;
for every input, including inverted ranges and negative prices, the
overlap rewrite runs and the new range is inserted into the stored
ranges (so such inputs always mutate the store rather than being
rejected). -/
theorem C5_amended_no_validation (hid : Nat) (u : RateUpdate)
    (store : List RoomRate) :
    newRate hid u ∈ update_daily_rates hid u store := by
  unfold update_daily_rates
  simp

/-! ## Availability Aggregator: `get_availability` (`availability.py`, GET /availability) -/

/-- Number of entries of a booking's `rooms` list naming the given room
type (the inner loop of the handler adds one per matching entry). -/
def countSelections (b : Booking) (rtid : Nat) : Int :=
  ((b.rooms.filter (fun sel => decide (sel.room_type_id = rtid))).length : Int)

/-- Per-day booked count over an already fetched booking list: a booking
contributes its matching room-selection entries when
`check_in <= day < check_out` (step 6 of the handler). -/
def bookedOn (bookings : List Booking) (rtid : Nat) (d : Int) : Int :=
  (bookings.map (fun b =>
    if b.check_in ≤ d ∧ d < b.check_out then countSelections b rtid else 0)).sum

/-- Per-day blocked count over an already fetched block list: sum of
`blocked_count` over blocks of this room type whose inclusive range
contains the day. -/
def blockedOn (blocks : List RoomBlock) (rtid : Nat) (d : Int) : Int :=
  ((blocks.filter (fun bl =>
    decide (bl.room_type_id = rtid ∧ bl.start_date ≤ d ∧ d ≤ bl.end_date))).map
      (fun bl => bl.blocked_count)).sum

/-- Day-indexed price map built from the fetched base-rate rows: the
handler expands every row day by day into a dict, so for one (room, day)
key the price written last, that is by the latest row in list order whose
inclusive range contains the day, wins; a day no row covers falls back to
the room's base price. -/
def priceLookup (rates : List RoomRate) (rtid : Nat) (d : Int) (fallback : ℚ) : ℚ :=
  match rates.reverse.find? (fun dr =>
      decide (dr.room_type_id = rtid ∧ dr.date_from ≤ d ∧ d ≤ dr.date_to)) with
  | some dr => dr.price
  | none => fallback

/-- The inclusive day list `[start .. end]` generated in step 4 of the
handler (`range(delta + 1)`); empty when end < start. -/
def dateRangeIncl (sd ed : Int) : List Int :=
  (List.range (ed - sd + 1).toNat).map (fun i => sd + Int.ofNat i)

/-- One element of the per-day availability array emitted by the handler. -/
structure DayRecord where
  day : Int
  totalRooms : Int
  bookedRooms : Int
  blockedRooms : Int
  availableRooms : Int
  isBlocked : Bool
  price : ℚ
deriving DecidableEq

/-- One room type's entry in the GET /availability response. -/
structure RoomAvailability where
  room_id : Nat
  name : String
  totalInventory : Int
  availability : List DayRecord
deriving DecidableEq

/-- The GET /availability handler: fetch the hotel's room types, the
non-cancelled bookings and the blocks overlapping the window and the
base-price rate rows, then per room type and per day of the inclusive
window emit booked, blocked, clamped available count, blocked flag and
price. -/
def get_availability (hid : Nat) (sd ed : Int) (s : Store) :
    List RoomAvailability :=
  let room_types := s.room_types.filter (fun rt => decide (rt.hotel_id = hid))
  let bookings := s.bookings.filter (fun b =>
    decide (b.hotel_id = hid ∧ ¬ b.status = BookingStatus.cancelled ∧
      b.check_in ≤ ed ∧ sd < b.check_out))
  let blocks := s.blocks.filter (fun bl =>
    decide (bl.hotel_id = hid ∧ bl.start_date ≤ ed ∧ sd ≤ bl.end_date))
  let daily_rates := s.rates.filter (fun r =>
    decide (r.hotel_id = hid ∧ r.rate_plan_id = none ∧
      r.date_from ≤ ed ∧ sd ≤ r.date_to))
  room_types.map (fun rt =>
    { room_id := rt.id
      name := rt.name
      totalInventory := rt.total_inventory
      availability := (dateRangeIncl sd ed).map (fun d =>
        let booked := bookedOn bookings rt.id d
        let blocked := blockedOn blocks rt.id d
        let available := max 0 (rt.total_inventory - booked - blocked)
        { day := d
          totalRooms := rt.total_inventory
          bookedRooms := booked
          blockedRooms := blocked
          availableRooms := available
          isBlocked := decide (rt.total_inventory ≤ blocked) ||
            decide (available = 0)
          price := priceLookup daily_rates rt.id d rt.base_price }) })

/-! ## Day-level reference formulas (stated directly from the spec text) -/

/-- Booked count as the spec words it: over the whole booking table, a
non-cancelled booking of this hotel counts toward day `d` exactly when
`check_in <= d < check_out` (inclusive check-in, exclusive check-out). -/
def specBookedOn (bookings : List Booking) (hid rtid : Nat) (d : Int) : Int :=
  ((bookings.filter (fun b =>
    decide (b.hotel_id = hid ∧ ¬ b.status = BookingStatus.cancelled ∧
      b.check_in ≤ d ∧ d < b.check_out))).map
        (fun b => countSelections b rtid)).sum

/-- Blocked count as the spec words it: sum of `blocked_count` over this
hotel's blocks of the room type whose inclusive range contains `d`. -/
def specBlockedOn (blocks : List RoomBlock) (hid rtid : Nat) (d : Int) : Int :=
  ((blocks.filter (fun bl =>
    decide (bl.hotel_id = hid ∧ bl.room_type_id = rtid ∧
      bl.start_date ≤ d ∧ d ≤ bl.end_date))).map
        (fun bl => bl.blocked_count)).sum

theorem sum_filter_map_eq {α : Type} (p : α → Bool) (f : α → Int) :
    ∀ L : List α, ((L.filter p).map f).sum =
      (L.map (fun a => if p a = true then f a else 0)).sum := by
  intro L
  induction L with
  | nil => rfl
  | cons a t ih =>
    by_cases h : p a = true
    · simp only [List.filter_cons, h, if_true, List.map_cons, List.sum_cons, ih]
    · simp only [List.filter_cons, h, if_false, Bool.false_eq_true,
        List.map_cons, List.sum_cons, ih]
      omega

theorem bookedOn_window (L : List Booking) (hid rtid : Nat) {sd ed d : Int}
    (h1 : sd ≤ d) (h2 : d ≤ ed) :
    bookedOn (L.filter (fun b =>
        decide (b.hotel_id = hid ∧ ¬ b.status = BookingStatus.cancelled ∧
          b.check_in ≤ ed ∧ sd < b.check_out))) rtid d =
      specBookedOn L hid rtid d := by
  unfold bookedOn specBookedOn
  rw [sum_filter_map_eq, sum_filter_map_eq]
  congr 1
  apply List.map_congr_left
  intro b _
  by_cases hD : b.check_in ≤ d ∧ d < b.check_out
  · by_cases hA : b.hotel_id = hid
    · by_cases hB : b.status = BookingStatus.cancelled
      · rw [decide_eq_false (fun h : b.hotel_id = hid ∧ ¬ b.status = BookingStatus.cancelled ∧
              b.check_in ≤ ed ∧ sd < b.check_out => h.2.1 hB),
          decide_eq_false (fun h : b.hotel_id = hid ∧ ¬ b.status = BookingStatus.cancelled ∧
              b.check_in ≤ d ∧ d < b.check_out => h.2.1 hB)]
        simp
      · rw [decide_eq_true (show b.hotel_id = hid ∧ ¬ b.status = BookingStatus.cancelled ∧
              b.check_in ≤ ed ∧ sd < b.check_out from ⟨hA, hB, by omega, by omega⟩),
          decide_eq_true (show b.hotel_id = hid ∧ ¬ b.status = BookingStatus.cancelled ∧
              b.check_in ≤ d ∧ d < b.check_out from ⟨hA, hB, hD.1, hD.2⟩),
          if_pos rfl, if_pos rfl, if_pos hD]
    · rw [decide_eq_false (fun h : b.hotel_id = hid ∧ ¬ b.status = BookingStatus.cancelled ∧
              b.check_in ≤ ed ∧ sd < b.check_out => hA h.1),
        decide_eq_false (fun h : b.hotel_id = hid ∧ ¬ b.status = BookingStatus.cancelled ∧
              b.check_in ≤ d ∧ d < b.check_out => hA h.1)]
      simp
  · by_cases hA : b.hotel_id = hid
    · by_cases hB : b.status = BookingStatus.cancelled
      · rw [decide_eq_false (fun h : b.hotel_id = hid ∧ ¬ b.status = BookingStatus.cancelled ∧
              b.check_in ≤ ed ∧ sd < b.check_out => h.2.1 hB),
          decide_eq_false (fun h : b.hotel_id = hid ∧ ¬ b.status = BookingStatus.cancelled ∧
              b.check_in ≤ d ∧ d < b.check_out => h.2.1 hB)]
        simp
      · rw [decide_eq_false (fun h : b.hotel_id = hid ∧ ¬ b.status = BookingStatus.cancelled ∧
              b.check_in ≤ d ∧ d < b.check_out =>
            hD ⟨h.2.2.1, h.2.2.2⟩), if_neg hD]
        simp
    · rw [decide_eq_false (fun h : b.hotel_id = hid ∧ ¬ b.status = BookingStatus.cancelled ∧
              b.check_in ≤ ed ∧ sd < b.check_out => hA h.1),
        decide_eq_false (fun h : b.hotel_id = hid ∧ ¬ b.status = BookingStatus.cancelled ∧
              b.check_in ≤ d ∧ d < b.check_out => hA h.1)]
      simp

theorem blockedOn_window (L : List RoomBlock) (hid rtid : Nat) {sd ed d : Int}
    (h1 : sd ≤ d) (h2 : d ≤ ed) :
    blockedOn (L.filter (fun bl =>
        decide (bl.hotel_id = hid ∧ bl.start_date ≤ ed ∧ sd ≤ bl.end_date)))
        rtid d =
      specBlockedOn L hid rtid d := by
  unfold blockedOn specBlockedOn
  rw [List.filter_filter, sum_filter_map_eq, sum_filter_map_eq]
  congr 1
  apply List.map_congr_left
  intro bl _
  simp only [Bool.and_eq_true, decide_eq_true_eq]
  split_ifs <;> first | rfl | omega

theorem mem_dateRangeIncl {sd ed d : Int} (h : d ∈ dateRangeIncl sd ed) :
    sd ≤ d ∧ d ≤ ed := by
  unfold dateRangeIncl at h
  obtain ⟨i, hi, rfl⟩ := List.mem_map.mp h
  rw [List.mem_range] at hi
  rw [Int.ofNat_eq_coe]
  omega

/-- C7: in the GET /availability response, the per-day booked count uses
the inclusive check-in / exclusive check-out convention: a non-cancelled
booking counts toward day d exactly when check_in <= d < check_out (as
`specBookedOn` words it over the whole booking table). -/
theorem C7_exclusive_checkout (s : Store) (hid : Nat) (sd ed : Int)
    (rd : RoomAvailability) (hrd : rd ∈ get_availability hid sd ed s)
    (da : DayRecord) (hda : da ∈ rd.availability) :
    da.bookedRooms = specBookedOn s.bookings hid rd.room_id da.day := by
  unfold get_availability at hrd
  obtain ⟨rt, hrt, rfl⟩ := List.mem_map.mp hrd
  dsimp at hda ⊢
  obtain ⟨d, hd, rfl⟩ := List.mem_map.mp hda
  obtain ⟨h1, h2⟩ := mem_dateRangeIncl hd
  exact bookedOn_window s.bookings hid rt.id h1 h2

/-- C8: every per-day record of the GET /availability response satisfies
available = max 0 (inventory - booked - blocked) with the spec's booked and
blocked formulas, is therefore never negative, and its reported blocked
flag is true exactly when the blocked count alone reaches inventory or the
clamped available count is zero. -/
theorem C8_availability_clamped (s : Store) (hid : Nat) (sd ed : Int)
    (rd : RoomAvailability) (hrd : rd ∈ get_availability hid sd ed s)
    (da : DayRecord) (hda : da ∈ rd.availability) :
    da.availableRooms =
      max 0 (rd.totalInventory - specBookedOn s.bookings hid rd.room_id da.day
        - specBlockedOn s.blocks hid rd.room_id da.day) ∧
    0 ≤ da.availableRooms ∧
    (da.isBlocked = true ↔
      (rd.totalInventory ≤ specBlockedOn s.blocks hid rd.room_id da.day ∨
        da.availableRooms = 0)) := by
  unfold get_availability at hrd
  obtain ⟨rt, hrt, rfl⟩ := List.mem_map.mp hrd
  dsimp at hda ⊢
  obtain ⟨d, hd, rfl⟩ := List.mem_map.mp hda
  obtain ⟨h1, h2⟩ := mem_dateRangeIncl hd
  rw [bookedOn_window s.bookings hid rt.id h1 h2,
    blockedOn_window s.blocks hid rt.id h1 h2]
  refine ⟨rfl, le_max_left _ _, ?_⟩
  rw [Bool.or_eq_true, decide_eq_true_eq, decide_eq_true_eq]

/-- Room type row shared by the concrete availability witnesses:
one unit of inventory, base price 100. -/
def rtW : RoomType :=
  { id := 1, hotel_id := 0, name := "Std", base_occupancy := 2,
    max_occupancy := 3, max_children := 1, base_price := 100,
    total_inventory := 1, is_active := true, extra_person_price := 0 }

/-- Booking from day 1 (2026-03-01) to day 3 (2026-03-03, exclusive
check-out) of one `rtW` unit. -/
def bkW7 : Booking :=
  { hotel_id := 0, check_in := 1, check_out := 3,
    status := BookingStatus.confirmed, rooms := [{ room_type_id := 1 }] }

/-- Store used to witness C7. -/
def storeW7 : Store :=
  { room_types := [rtW], bookings := [bkW7], blocks := [], rates := [],
    rate_plans := [], promos := [] }

/-- Day records of `get_availability 0 1 3 storeW7`: the booking occupies
days 1 and 2 only; day 3 (its check-out day) has booked count 0. -/
def daysW7 : List DayRecord :=
  [{ day := 1, totalRooms := 1, bookedRooms := 1, blockedRooms := 0,
     availableRooms := 0, isBlocked := true, price := 100 },
   { day := 2, totalRooms := 1, bookedRooms := 1, blockedRooms := 0,
     availableRooms := 0, isBlocked := true, price := 100 },
   { day := 3, totalRooms := 1, bookedRooms := 0, blockedRooms := 0,
     availableRooms := 1, isBlocked := false, price := 100 }]

/-- Response row of `get_availability 0 1 3 storeW7`. -/
def rdW7 : RoomAvailability :=
  { room_id := 1, name := "Std", totalInventory := 1, availability := daysW7 }

/-- Day-3 record of `rdW7`: the check-out day, not occupied. -/
def daW7 : DayRecord :=
  { day := 3, totalRooms := 1, bookedRooms := 0, blockedRooms := 0,
    availableRooms := 1, isBlocked := false, price := 100 }

/-- Witness for C7 at the concrete store `storeW7`, day 3 = check-out day
of the booking [1, 3): its booked count is the spec formula's value. -/
theorem C7_exclusive_checkout_witness :
    rdW7 ∈ get_availability 0 1 3 storeW7 ∧ daW7 ∈ rdW7.availability ∧
      daW7.bookedRooms = specBookedOn storeW7.bookings 0 rdW7.room_id daW7.day :=
  ⟨by decide, by decide,
    C7_exclusive_checkout storeW7 0 1 3 rdW7 (by decide) daW7 (by decide)⟩

/-- One-night booking of one `rtW` unit on day 1, used by the C8 witness. -/
def bkW8 : Booking :=
  { hotel_id := 0, check_in := 1, check_out := 2,
    status := BookingStatus.confirmed, rooms := [{ room_type_id := 1 }] }

/-- Five-unit block of the C8 witness on day 1. -/
def blW8 : RoomBlock :=
  { hotel_id := 0, room_type_id := 1, start_date := 1, end_date := 1,
    blocked_count := 5 }

/-- Store used to witness C8: one unit of inventory, one booked unit and a
five-unit block on day 1, so booked + blocked exceeds inventory. -/
def storeW8 : Store :=
  { room_types := [rtW], bookings := [bkW8], blocks := [blW8], rates := [],
    rate_plans := [], promos := [] }

/-- The single day record of `get_availability 0 1 1 storeW8`: available
clamps to 0 although 1 - 1 - 5 is negative. -/
def daW8 : DayRecord :=
  { day := 1, totalRooms := 1, bookedRooms := 1, blockedRooms := 5,
    availableRooms := 0, isBlocked := true, price := 100 }

/-- Response row of `get_availability 0 1 1 storeW8`. -/
def rdW8 : RoomAvailability :=
  { room_id := 1, name := "Std", totalInventory := 1, availability := [daW8] }

/-- Witness for C8 at the concrete overbooked store `storeW8`. -/
theorem C8_availability_clamped_witness :
    rdW8 ∈ get_availability 0 1 1 storeW8 ∧ daW8 ∈ rdW8.availability ∧
      (daW8.availableRooms =
        max 0 (rdW8.totalInventory -
          specBookedOn storeW8.bookings 0 rdW8.room_id daW8.day -
          specBlockedOn storeW8.blocks 0 rdW8.room_id daW8.day) ∧
      0 ≤ daW8.availableRooms ∧
      (daW8.isBlocked = true ↔
        (rdW8.totalInventory ≤
            specBlockedOn storeW8.blocks 0 rdW8.room_id daW8.day ∨
          daW8.availableRooms = 0))) :=
  ⟨by decide, by decide,
    C8_availability_clamped storeW8 0 1 1 rdW8 (by decide) daW8 (by decide)⟩

/-! ## Rate-Plan Pricing Resolver: `search_public_rooms` (`public.py`,
GET /hotels/.../rooms) -/

/-- One rate option emitted per active rate plan.  The handler's
`savings_text` string ("Save INR n") is represented by the discount amount
it displays; `none` when no discount was applied. -/
structure RateOption where
  id : Nat
  name : String
  meal_plan_code : String
  price_per_night : ℚ
  total_price : ℚ
  inclusions : List String
  savings : Option ℚ
deriving DecidableEq

/-- One room-type entry of the public search response: the room row
(`model_dump`), the lowest option total, the computed available count and
the rate options. -/
structure PublicRoomSearchResult where
  room : RoomType
  price_starting_at : ℚ
  available_rooms : Int
  rate_options : List RateOption
deriving DecidableEq

/-- Promo lookup of step 4b of the handler: only run on a truthy
(non-empty) code, and the query filters on hotel, code and the active flag
alone.  `find?` models `scalar_one_or_none` on the first match. -/
def promoLookup (hid : Nat) (pc : Option String) (promos : List PromoCode) :
    Option PromoCode :=
  match pc with
  | none => none
  | some c =>
    if c = "" then none
    else promos.find? (fun p =>
      decide (p.hotel_id = hid ∧ p.code = c ∧ p.is_active = true))

/-- Discount computed from a found promo: percentage of the plan total, or
the raw fixed `discount_value`. -/
def promoDiscount (p : PromoCode) (total : ℚ) : ℚ :=
  if p.discount_type = "percentage" then total * (p.discount_value / 100)
  else p.discount_value

/-- Application of the discount to the plan total: subtracted with no
floor whenever it is positive. -/
def applyPromoTotal (p : PromoCode) (total : ℚ) : ℚ :=
  if 0 < promoDiscount p total then total - promoDiscount p total else total

/-- The savings note set exactly when a positive discount was applied. -/
def promoSavings (p : PromoCode) (total : ℚ) : Option ℚ :=
  if 0 < promoDiscount p total then some (promoDiscount p total) else none

/-- The half-open night list `[check_in .. check_out)` walked by the
nightly pricing loop (`while current_date < check_out`). -/
def stayNights (ci co : Int) : List Int :=
  (List.range (co - ci).toNat).map (fun i => ci + Int.ofNat i)

/-- Price of one night for one plan: daily override or static base, plus
the plan's additive adjustment, plus the extra-occupant charge.  Python
truthiness makes a zero `extra_person_price` fall back to the constant
1000. -/
def nightlyRate (daily_rates : List RoomRate) (rt : RoomType) (modifier : ℚ)
    (guests : Int) (d : Int) : ℚ :=
  let base := priceLookup daily_rates rt.id d rt.base_price
  let rate := base + modifier
  let extra := max 0 (guests - rt.base_occupancy)
  if 0 < extra then
    rate + (extra : ℚ) * (if rt.extra_person_price = 0 then 1000
      else rt.extra_person_price)
  else rate

/-- The rate option built for one active plan: sum the nightly rates over
the stay, divide by the (floored at 1) night count for display, then apply
any found promo to the total. -/
def planOption (daily_rates : List RoomRate) (promo : Option PromoCode)
    (ci co nights guests : Int) (rt : RoomType) (plan : RatePlan) :
    RateOption :=
  let modifier := plan.price_adjustment.getD 0
  let total := ((stayNights ci co).map
    (nightlyRate daily_rates rt modifier guests)).sum
  { id := plan.id
    name := plan.name
    meal_plan_code := plan.meal_plan
    price_per_night := total / (nights : ℚ)
    total_price := match promo with
      | some p => applyPromoTotal p total
      | none => total
    inclusions := ["Free Wi-Fi"]
    savings := match promo with
      | some p => promoSavings p total
      | none => none }

/-- Lowest total among the emitted options (`min(...)` over a non-empty
list in the handler). -/
def listMin (l : List ℚ) : ℚ :=
  match l with
  | [] => 0
  | t :: ts => ts.foldl min t

/-- Aggregate booked count of the search loop: every fetched booking
contributes its matching room-selection entries, with no per-night
breakdown. -/
def searchBooked (bookings : List Booking) (rtid : Nat) : Int :=
  (bookings.map (fun b => countSelections b rtid)).sum

/-- Aggregate blocked count of the search loop: sum of `blocked_count`
over the fetched blocks of the room type, with no per-day breakdown. -/
def searchBlocked (blocks : List RoomBlock) (rtid : Nat) : Int :=
  ((blocks.filter (fun bl => decide (bl.room_type_id = rtid))).map
    (fun bl => bl.blocked_count)).sum

/-- The rate options of one room type: one option per fetched rate plan. -/
def planOptions (daily_rates : List RoomRate) (promo : Option PromoCode)
    (ci co nights guests : Int) (rt : RoomType) (rate_plans : List RatePlan) :
    List RateOption :=
  rate_plans.map (planOption daily_rates promo ci co nights guests rt)

/-- Per-room-type body of the search loop: the capacity gate, then the
aggregate booked/blocked computation over every fetched booking and block
(with no per-night breakdown), the `available > 0` gate, the rate options
for every active plan, and the drop of room types with no options. -/
def roomResult (ci co nights guests children : Int)
    (rate_plans : List RatePlan) (daily_rates : List RoomRate)
    (bookings : List Booking) (blocks : List RoomBlock)
    (promo : Option PromoCode) (rt : RoomType) :
    Option PublicRoomSearchResult :=
  if guests ≤ rt.max_occupancy ∧ children ≤ rt.max_children then
    if 0 < rt.total_inventory -
        (searchBooked bookings rt.id + searchBlocked blocks rt.id) then
      if planOptions daily_rates promo ci co nights guests rt rate_plans
          = [] then none
      else some
        { room := rt
          price_starting_at := listMin
            ((planOptions daily_rates promo ci co nights guests rt
              rate_plans).map (fun o => o.total_price))
          available_rooms := rt.total_inventory -
            (searchBooked bookings rt.id + searchBlocked blocks rt.id)
          rate_options :=
            planOptions daily_rates promo ci co nights guests rt rate_plans }
    else none
  else none

/-- The GET /hotels/.../rooms handler: fetch the hotel's active room types,
active rate plans, window-overlapping base-rate rows, non-cancelled
window-overlapping bookings and window-overlapping blocks, look up the
promo, and run the per-room-type loop. -/
def search_public_rooms (hid : Nat) (ci co guests children : Int)
    (pc : Option String) (s : Store) : List PublicRoomSearchResult :=
  let rate_plans := s.rate_plans.filter (fun p =>
    decide (p.hotel_id = hid ∧ p.is_active = true))
  let daily_rates := s.rates.filter (fun r =>
    decide (r.hotel_id = hid ∧ r.rate_plan_id = none ∧
      r.date_from ≤ co ∧ ci ≤ r.date_to))
  let bookings := s.bookings.filter (fun b =>
    decide (b.hotel_id = hid ∧ ¬ b.status = BookingStatus.cancelled ∧
      b.check_in < co ∧ ci < b.check_out))
  let blocks := s.blocks.filter (fun bl =>
    decide (bl.hotel_id = hid ∧ bl.start_date ≤ co ∧ ci ≤ bl.end_date))
  let promo := promoLookup hid pc s.promos
  let nights := max 1 (co - ci)
  (s.room_types.filter (fun rt =>
      decide (rt.hotel_id = hid ∧ rt.is_active = true))).filterMap
    (roomResult ci co nights guests children rate_plans daily_rates
      bookings blocks promo)

/-- Single-night availability as the spec words it:
max 0 (inventory - booked(d) - blocked(d)). -/
def specNightAvail (s : Store) (hid rtid : Nat) (inv d : Int) : Int :=
  max 0 (inv - specBookedOn s.bookings hid rtid d -
    specBlockedOn s.blocks hid rtid d)

/-- Aggregate booked count actually used by the search: every room
selection of every non-cancelled booking whose [check_in, check_out)
range meets the open window counts once, with no per-night breakdown. -/
def aggBookedSearch (s : Store) (hid : Nat) (ci co : Int) (rtid : Nat) : Int :=
  searchBooked (s.bookings.filter (fun b =>
    decide (b.hotel_id = hid ∧ ¬ b.status = BookingStatus.cancelled ∧
      b.check_in < co ∧ ci < b.check_out))) rtid

/-- Aggregate blocked count actually used by the search: the sum of
`blocked_count` over every window-overlapping block of the room type. -/
def aggBlockedSearch (s : Store) (hid : Nat) (ci co : Int) (rtid : Nat) : Int :=
  searchBlocked (s.blocks.filter (fun bl =>
    decide (bl.hotel_id = hid ∧ bl.start_date ≤ co ∧ ci ≤ bl.end_date))) rtid

/-- Room type of the concrete search stores: five units, capacity 4+2. -/
def rt2 : RoomType :=
  { id := 1, hotel_id := 0, name := "Std", base_occupancy := 2,
    max_occupancy := 4, max_children := 2, base_price := 100,
    total_inventory := 5, is_active := true, extra_person_price := 0 }

/-- Active rate plan of the concrete search stores, with zero adjustment. -/
def planW : RatePlan :=
  { id := 7, hotel_id := 0, name := "RO", meal_plan := "EP",
    price_adjustment := some 0, is_active := true }

/-- One-night booking of day 10 only. -/
def bkC2a : Booking :=
  { hotel_id := 0, check_in := 10, check_out := 11,
    status := BookingStatus.confirmed, rooms := [{ room_type_id := 1 }] }

/-- One-night booking of day 11 only. -/
def bkC2b : Booking :=
  { hotel_id := 0, check_in := 11, check_out := 12,
    status := BookingStatus.confirmed, rooms := [{ room_type_id := 1 }] }

/-- Store of the C2 counterexample: five units, one booking on night 10
and another on night 11. -/
def storeC2 : Store :=
  { room_types := [rt2], bookings := [bkC2a, bkC2b], blocks := [],
    rates := [], rate_plans := [planW], promos := [] }

/-- C2 counterexample: for the 2-night stay [10, 12) over `storeC2`, each
single night has 4 units free (one booking per night), so the per-night
minimum is 4; the search nevertheless reports 3 available units because it
subtracts the aggregate count of both window-overlapping bookings. -/
theorem C2_counterexample :
    ((search_public_rooms 0 10 12 2 0 none storeC2).map
        (fun e => e.available_rooms)) = [3] ∧
      ((stayNights 10 12).map (fun d => specNightAvail storeC2 0 1 5 d)) =
        [4, 4] ∧
      (3 : Int) ≠ 4 := by decide

/-- C2 amended: the available-unit count reported by the search equals
inventory minus the aggregate booked count (each non-cancelled booking
overlapping the open window counted once per matching room selection,
regardless of how many nights it shares with the stay) minus the
aggregate blocked count of window-overlapping blocks, and a room type is
listed only when this aggregate is positive. -/
theorem C2_amended_aggregate (hid : Nat) (ci co guests children : Int)
    (pc : Option String) (s : Store) (e : PublicRoomSearchResult)
    (he : e ∈ search_public_rooms hid ci co guests children pc s) :
    e.available_rooms = e.room.total_inventory -
      (aggBookedSearch s hid ci co e.room.id +
        aggBlockedSearch s hid ci co e.room.id) ∧
    0 < e.available_rooms := by
  unfold search_public_rooms at he
  rw [List.mem_filterMap] at he
  obtain ⟨rt, hrt, hres⟩ := he
  unfold roomResult at hres
  split_ifs at hres with h1 h2 h3
  · rw [Option.some.injEq] at hres
    subst hres
    exact ⟨rfl, h2⟩

/-- Rate option of the C2 search result: 2 nights at base price 100 with a
zero plan adjustment. -/
def optC2 : RateOption :=
  { id := 7, name := "RO", meal_plan_code := "EP", price_per_night := 100,
    total_price := 200, inclusions := ["Free Wi-Fi"], savings := none }

/-- The single row of `search_public_rooms 0 10 12 2 0 none storeC2`. -/
def resC2 : PublicRoomSearchResult :=
  { room := rt2, price_starting_at := 200, available_rooms := 3,
    rate_options := [optC2] }

/-- Evaluation of the concrete search over `storeC2` (rational arithmetic
is normalised by `norm_num`, everything else computes). -/
theorem searchC2_eval :
    search_public_rooms 0 10 12 2 0 none storeC2 = [resC2] := by
  have hn : stayNights 10 12 = [10, 11] := by decide
  norm_num +decide [search_public_rooms, storeC2, rt2, planW, bkC2a, bkC2b,
    roomResult, planOptions, planOption, nightlyRate, priceLookup, hn,
    listMin, promoLookup, countSelections, searchBooked, searchBlocked,
    resC2, optC2, List.filter, List.filterMap, List.find?, max_def]

/-- Witness for the amended C2 at the concrete store `storeC2`. -/
theorem C2_amended_aggregate_witness :
    resC2 ∈ search_public_rooms 0 10 12 2 0 none storeC2 ∧
      (resC2.available_rooms = resC2.room.total_inventory -
        (aggBookedSearch storeC2 0 10 12 resC2.room.id +
          aggBlockedSearch storeC2 0 10 12 resC2.room.id) ∧
      0 < resC2.available_rooms) :=
  ⟨by rw [searchC2_eval]; exact List.mem_singleton_self _,
    C2_amended_aggregate 0 10 12 2 0 none storeC2 resC2
      (by rw [searchC2_eval]; exact List.mem_singleton_self _)⟩

/-- Room type of the promo stores: like `rt2` but with base price 1000. -/
def rt4 : RoomType :=
  { id := 1, hotel_id := 0, name := "Std", base_occupancy := 2,
    max_occupancy := 4, max_children := 2, base_price := 1000,
    total_inventory := 5, is_active := true, extra_person_price := 0 }

/-- Active fixed-amount promo worth 2000, more than the 1000 stay total. -/
def promoC4 : PromoCode :=
  { hotel_id := 0, code := "SAVE", discount_type := "fixed_amount",
    discount_value := 2000, start_date := none, end_date := none,
    max_usage := none, current_usage := 0, is_active := true }

/-- Store of the C4 counterexample. -/
def storeC4 : Store :=
  { room_types := [rt4], bookings := [], blocks := [], rates := [],
    rate_plans := [planW], promos := [promoC4] }

/-- The rate option the C4 search emits: stay total 1000, discount 2000,
final total -1000. -/
def optC4 : RateOption :=
  { id := 7, name := "RO", meal_plan_code := "EP", price_per_night := 1000,
    total_price := -1000, inclusions := ["Free Wi-Fi"], savings := some 2000 }

/-- The single row of the C4 search. -/
def resC4 : PublicRoomSearchResult :=
  { room := rt4, price_starting_at := -1000, available_rooms := 5,
    rate_options := [optC4] }

/-- Evaluation of the one-night search over `storeC4` with promo SAVE. -/
theorem searchC4_eval :
    search_public_rooms 0 10 11 2 0 (some "SAVE") storeC4 = [resC4] := by
  have hn : stayNights 10 11 = [10] := by decide
  norm_num +decide [search_public_rooms, storeC4, rt4, planW, promoC4,
    roomResult, planOptions, planOption, nightlyRate, priceLookup, hn,
    listMin, promoLookup, promoDiscount, applyPromoTotal, promoSavings,
    countSelections, searchBooked, searchBlocked, resC4, optC4,
    List.filter, List.filterMap, List.find?, max_def]

/-- C4 counterexample: a fixed promo of 2000 applied to a stay total of
1000 yields a final rate-option price of -1000, below zero: the handler
subtracts the discount with no floor. -/
theorem C4_counterexample :
    ((search_public_rooms 0 10 11 2 0 (some "SAVE") storeC4).map
        (fun e => e.rate_options.map (fun o => o.total_price))) = [[-1000]] ∧
      ¬ (0 : ℚ) ≤ -1000 := by
  constructor
  · rw [searchC4_eval]; decide
  · norm_num

/-- C4 amended: for a non-percentage promo with a positive
`discount_value`, the handler subtracts the raw value with no floor; the
final plan total is exactly `total - discount_value`, and it is negative
whenever the discount exceeds the stay total. -/
theorem C4_amended_no_floor (p : PromoCode) (total : ℚ)
    (h1 : ¬ p.discount_type = "percentage") (h2 : 0 < p.discount_value) :
    applyPromoTotal p total = total - p.discount_value ∧
      (total < p.discount_value → applyPromoTotal p total < 0) := by
  unfold applyPromoTotal promoDiscount
  rw [if_neg h1, if_pos h2]
  exact ⟨rfl, fun hlt => by linarith⟩

/-- Witness for the amended C4 at `promoC4` and stay total 1000. -/
theorem C4_amended_no_floor_witness :
    (¬ promoC4.discount_type = "percentage") ∧ (0 < promoC4.discount_value) ∧
      (applyPromoTotal promoC4 1000 = 1000 - promoC4.discount_value ∧
        ((1000 : ℚ) < promoC4.discount_value → applyPromoTotal promoC4 1000 < 0)) :=
  ⟨by decide, by norm_num [promoC4],
    C4_amended_no_floor promoC4 1000 (by decide) (by norm_num [promoC4])⟩

/-- Active promo with a configured validity window (days 10..50) and a
configured usage cap of 1 already exceeded by its counter of 5. -/
def promoC6 : PromoCode :=
  { hotel_id := 0, code := "VIP", discount_type := "fixed_amount",
    discount_value := 200, start_date := some 10, end_date := some 50,
    max_usage := some 1, current_usage := 5, is_active := true }

/-- Store of the C6 counterexample. -/
def storeC6 : Store :=
  { room_types := [rt4], bookings := [], blocks := [], rates := [],
    rate_plans := [planW], promos := [promoC6] }

/-- The rate option the C6 search emits: the over-cap, out-of-window promo
is still applied and lowers the total from 1000 to 800. -/
def optC6 : RateOption :=
  { id := 7, name := "RO", meal_plan_code := "EP", price_per_night := 1000,
    total_price := 800, inclusions := ["Free Wi-Fi"], savings := some 200 }

/-- The single row of the C6 search. -/
def resC6 : PublicRoomSearchResult :=
  { room := rt4, price_starting_at := 800, available_rooms := 5,
    rate_options := [optC6] }

/-- Evaluation of the one-night search (stay on day 100, after the promo
window closes on day 50) over `storeC6` with promo VIP. -/
theorem searchC6_eval :
    search_public_rooms 0 100 101 2 0 (some "VIP") storeC6 = [resC6] := by
  have hn : stayNights 100 101 = [100] := by decide
  norm_num +decide [search_public_rooms, storeC6, rt4, planW, promoC6,
    roomResult, planOptions, planOption, nightlyRate, priceLookup, hn,
    listMin, promoLookup, promoDiscount, applyPromoTotal, promoSavings,
    countSelections, searchBooked, searchBlocked, resC6, optC6,
    List.filter, List.filterMap, List.find?, max_def]

/-- C6 counterexample: `promoC6` is over its configured usage cap (counter
5 against cap 1) and its configured validity window ended on day 50, yet
the search for a stay on day 100 still applies its 200 discount (final
total 800 instead of 1000): validity window and usage cap are never
checked. -/
theorem C6_counterexample :
    promoC6.is_active = true ∧ promoC6.max_usage = some 1 ∧
      promoC6.current_usage = 5 ∧ ¬ promoC6.current_usage < 1 ∧
      promoC6.end_date = some 50 ∧ (50 : Int) < 100 ∧
      ((search_public_rooms 0 100 101 2 0 (some "VIP") storeC6).map
        (fun e => e.rate_options.map (fun o => o.total_price))) = [[800]] ∧
      (800 : ℚ) ≠ 1000 := by
  refine ⟨rfl, rfl, rfl, by decide, rfl, by decide, ?_, by decide⟩
  rw [searchC6_eval]; decide

/-- Field rewrite leaving exactly the promo fields the spec calls the
validity window and usage data free, and everything else unchanged. -/
def setValidity (f g : PromoCode → Option Int) (h : PromoCode → Option Int)
    (k : PromoCode → Int) (p : PromoCode) : PromoCode :=
  { hotel_id := p.hotel_id, code := p.code,
    discount_type := p.discount_type, discount_value := p.discount_value,
    start_date := f p, end_date := g p, max_usage := h p,
    current_usage := k p, is_active := p.is_active }

theorem find?_promo_map_setValidity (hid : Nat) (c : String)
    (f g : PromoCode → Option Int) (h : PromoCode → Option Int)
    (k : PromoCode → Int) :
    ∀ promos : List PromoCode,
      (promos.map (setValidity f g h k)).find? (fun p =>
          decide (p.hotel_id = hid ∧ p.code = c ∧ p.is_active = true)) =
        (promos.find? (fun p =>
          decide (p.hotel_id = hid ∧ p.code = c ∧ p.is_active = true))).map
            (setValidity f g h k) := by
  intro promos
  induction promos with
  | nil => rfl
  | cons p t ih =>
    rw [List.map_cons]
    by_cases hp :
        (decide (p.hotel_id = hid ∧ p.code = c ∧ p.is_active = true)) = true
    · have hps : (fun q : PromoCode =>
          decide (q.hotel_id = hid ∧ q.code = c ∧ q.is_active = true))
            (setValidity f g h k p) = true := hp
      rw [@List.find?_cons_of_pos PromoCode
          (fun q => decide (q.hotel_id = hid ∧ q.code = c ∧ q.is_active = true))
          (setValidity f g h k p) (t.map (setValidity f g h k)) hps,
        @List.find?_cons_of_pos PromoCode
          (fun q => decide (q.hotel_id = hid ∧ q.code = c ∧ q.is_active = true))
          p t hp]
      rfl
    · have hps : ¬ (fun q : PromoCode =>
          decide (q.hotel_id = hid ∧ q.code = c ∧ q.is_active = true))
            (setValidity f g h k p) = true := hp
      rw [@List.find?_cons_of_neg PromoCode
          (fun q => decide (q.hotel_id = hid ∧ q.code = c ∧ q.is_active = true))
          (setValidity f g h k p) (t.map (setValidity f g h k)) hps,
        @List.find?_cons_of_neg PromoCode
          (fun q => decide (q.hotel_id = hid ∧ q.code = c ∧ q.is_active = true))
          p t hp, ih]

theorem promoLookup_map_setValidity (hid : Nat) (pc : Option String)
    (promos : List PromoCode) (f g : PromoCode → Option Int)
    (h : PromoCode → Option Int) (k : PromoCode → Int) :
    promoLookup hid pc (promos.map (setValidity f g h k)) =
      (promoLookup hid pc promos).map (setValidity f g h k) := by
  cases pc with
  | none => rfl
  | some c =>
    simp only [promoLookup]
    by_cases hc : c = ""
    · rw [if_pos hc, if_pos hc]
      rfl
    · rw [if_neg hc, if_neg hc, find?_promo_map_setValidity]

/-- C6 amended: the promo lookup of the search filters only on hotel,
code and the active flag; the validity window and usage fields never
influence which promo is found nor the discount computed from it, and a
lookup miss simply yields no discount.  Formally: rewriting the
start/end/usage fields of every stored promo arbitrarily changes neither
the found discount nor the discounted total. -/
theorem C6_amended_only_active_checked (hid : Nat) (pc : Option String)
    (promos : List PromoCode) (f g : PromoCode → Option Int)
    (h : PromoCode → Option Int) (k : PromoCode → Int) (total : ℚ) :
    ((promoLookup hid pc (promos.map (setValidity f g h k))).map
        (fun p => promoDiscount p total)) =
      ((promoLookup hid pc promos).map (fun p => promoDiscount p total)) ∧
    ((promoLookup hid pc (promos.map (setValidity f g h k))).map
        (fun p => applyPromoTotal p total)) =
      ((promoLookup hid pc promos).map (fun p => applyPromoTotal p total)) := by
  rw [promoLookup_map_setValidity]
  cases promoLookup hid pc promos with
  | none => exact ⟨rfl, rfl⟩
  | some p => exact ⟨rfl, rfl⟩

/-- C9: when a property has no active rate plan, the search never falls
back to the base price: every room type produces an empty rate-option list
and is dropped, so the whole result is empty regardless of availability. -/
theorem C9_no_plan_no_result (hid : Nat) (ci co guests children : Int)
    (pc : Option String) (s : Store)
    (hplans : s.rate_plans.filter (fun p =>
      decide (p.hotel_id = hid ∧ p.is_active = true)) = []) :
    search_public_rooms hid ci co guests children pc s = [] := by
  unfold search_public_rooms
  rw [hplans, List.filterMap_eq_nil_iff]
  intro rt _
  unfold roomResult planOptions
  simp

/-- Store used to witness C9: an active room type with full availability
but no rate plan at all. -/
def storeC9 : Store :=
  { room_types := [rt2], bookings := [], blocks := [], rates := [],
    rate_plans := [], promos := [] }

/-- Witness for C9 at `storeC9`: no active plans, empty search result. -/
theorem C9_no_plan_no_result_witness :
    (storeC9.rate_plans.filter (fun p =>
      decide (p.hotel_id = 0 ∧ p.is_active = true)) = []) ∧
      search_public_rooms 0 10 12 2 0 none storeC9 = [] :=
  ⟨by decide, C9_no_plan_no_result 0 10 12 2 0 none storeC9 (by decide)⟩

/-- C10: every room type that appears in a search result passed the
capacity gate: its `max_occupancy` is at least the requested guest count
and its `max_children` at least the requested children count; room types
failing either bound are excluded before any pricing. -/
theorem C10_capacity_gate (hid : Nat) (ci co guests children : Int)
    (pc : Option String) (s : Store) (e : PublicRoomSearchResult)
    (he : e ∈ search_public_rooms hid ci co guests children pc s) :
    guests ≤ e.room.max_occupancy ∧ children ≤ e.room.max_children := by
  unfold search_public_rooms at he
  rw [List.mem_filterMap] at he
  obtain ⟨rt, hrt, hres⟩ := he
  unfold roomResult at hres
  split_ifs at hres with h1 h2 h3
  rw [Option.some.injEq] at hres
  subst hres
  exact h1

/-- Witness for C10 at the concrete store `storeC2` (guests 2,
children 0). -/
theorem C10_capacity_gate_witness :
    resC2 ∈ search_public_rooms 0 10 12 2 0 none storeC2 ∧
      ((2 : Int) ≤ resC2.room.max_occupancy ∧
        (0 : Int) ≤ resC2.room.max_children) :=
  ⟨by rw [searchC2_eval]; exact List.mem_singleton_self _,
    C10_capacity_gate 0 10 12 2 0 none storeC2 resC2
      (by rw [searchC2_eval]; exact List.mem_singleton_self _)⟩
